import Mathlib

/-!
Shallow embedding of the FilmleAPI request handlers.

The repository contains three Express server variants:
  * `src/server.js`            — legacy `/mystery_movie` handler with table-casing
                                 retry, full-table-scan fallback and four-name
                                 movie-id extraction;
  * `src/unnamed/part_000`     — minimal legacy `/mystery_movie` handler;
  * `src/unnamed/part_001`     — `/api/mystery_movie`, `/api/search`,
                                 `/api/movie/:movie_id` and `fetchMovieDetails`.

JavaScript values are modelled by `JValue` (with an explicit `undefined`
constructor for JS `undefined`); objects are ordered association lists, as JS
objects preserve insertion order.  External effects (Supabase queries, axios
calls, the system clock, the `Date` builtin) are inputs of the handler
functions; handlers additionally return a trace of the database queries or
upstream URLs they issue.
-/

namespace Filmle

/-- JavaScript-like JSON values; `undefined` models JS `undefined`. -/
inductive JValue where
  | undefined : JValue
  | null : JValue
  | bool : Bool → JValue
  | num : Int → JValue
  | str : String → JValue
  | arr : List JValue → JValue
  | obj : List (String × JValue) → JValue

/-- JS truthiness: `undefined`, `null`, `false`, `0` and `""` are falsy;
arrays and objects are always truthy. -/
def truthy : JValue → Bool
  | .undefined => false
  | .null => false
  | .bool b => b
  | .num n => n != 0
  | .str s => s != ""
  | .arr _ => true
  | .obj _ => true

/-- JS `a || b`: the first operand if truthy, otherwise the second. -/
def jor (a b : JValue) : JValue := if truthy a then a else b

/-- First-match association lookup in an object's field list. -/
def lookupField : List (String × JValue) → String → JValue
  | [], _ => .undefined
  | (k', v) :: rest, k => if k' == k then v else lookupField rest k

/-- JS property access `v.k` (also models the optional chain `v?.k`):
`undefined` when the receiver is not an object or lacks the field. -/
def getField (v : JValue) (k : String) : JValue :=
  match v with
  | .obj fs => lookupField fs k
  | _ => .undefined

/-- Field list of an object value (empty for non-objects). -/
def objFields : JValue → List (String × JValue)
  | .obj fs => fs
  | _ => []

/-- Set a key in a field list: overwrite in place if present, append otherwise
(JS object-literal semantics). -/
def setFields : List (String × JValue) → String → JValue → List (String × JValue)
  | [], k, v => [(k, v)]
  | (k', v') :: rest, k, v =>
      if k' == k then (k, v) :: rest else (k', v') :: setFields rest k v

/-- JS object spread with one overriding key: `\x7b...base, k: x\x7d`. -/
def setField (base : JValue) (k : String) (x : JValue) : JValue :=
  .obj (setFields (objFields base) k x)

/-- Whether an object value has a field named `k`. -/
def hasKey (v : JValue) (k : String) : Bool :=
  match v with
  | .obj fs => fs.any (fun p => p.1 == k)
  | _ => false

/-- JS `Object.keys` as a JSON array of strings. -/
def jsKeys (v : JValue) : JValue :=
  match v with
  | .obj fs => .arr (fs.map fun p => JValue.str p.1)
  | _ => .arr []

/-- JS `typeof`. -/
def jsTypeof : JValue → String
  | .undefined => "undefined"
  | .null => "object"
  | .bool _ => "boolean"
  | .num _ => "number"
  | .str _ => "string"
  | .arr _ => "object"
  | .obj _ => "object"

/-- Whether the first character list is an initial segment of the second. -/
def charsStartWith : List Char → List Char → Bool
  | [], _ => true
  | _ :: _, [] => false
  | a :: pat, b :: l => a == b && charsStartWith pat l

/-- Whether the first character list occurs contiguously in the second. -/
def charsContain (pat : List Char) : List Char → Bool
  | [] => charsStartWith pat []
  | b :: l => charsStartWith pat (b :: l) || charsContain pat l

/-- JS `String.prototype.includes`: whether `pat` occurs in `s`. -/
def jsIncludes (s pat : String) : Bool := charsContain pat.toList s.toList

/-- JS `s.split('T')[0]`: the longest initial segment of `s` before the
first `'T'` (the whole string when `'T'` does not occur). -/
def truncateAtT (s : String) : String :=
  String.mk (s.toList.takeWhile (fun c => c != 'T'))

/-- Supabase error object: `message` may be absent (`none` models a missing
`message` property, guarded in source by optional chaining). -/
structure SbError where
  message : Option String
deriving DecidableEq

/-- Result of a Supabase query: the `data` value (row object, row array, or
`null`) together with an optional error, mirroring `\x7bdata, error\x7d`. -/
structure SbResult where
  data : JValue
  error : Option SbError

/-- Axios response: HTTP status and JSON payload. -/
structure AxResponse where
  status : Nat
  data : JValue

/-- Axios error: carries the upstream response when the server answered with
a non-2xx status, and `none` on transport failure. -/
structure AxError where
  response : Option AxResponse
  message : String

/-- Outcome of one axios call. -/
abbrev AxResult := Except AxError AxResponse

/-- HTTP response produced by a handler: status code and JSON body. -/
structure HttpResponse where
  status : Nat
  body : JValue

/-- Option String to JValue: a missing message is `undefined`. -/
def jvOfMsg : Option String → JValue
  | some s => .str s
  | none => .undefined

/-- Fixed TMDB base URL from the source. -/
def TMDB_BASE_URL : String := "https://api.themoviedb.org/3"

/-- URL of the TMDB details-by-id endpoint. -/
def detailsUrl (movieId : String) : String := TMDB_BASE_URL ++ "/movie/" ++ movieId

/-- URL of the TMDB credits-by-id endpoint. -/
def creditsUrl (movieId : String) : String :=
  TMDB_BASE_URL ++ "/movie/" ++ movieId ++ "/credits"

/-- The two URLs requested by `fetchMovieDetails` (details and credits). -/
def fetchMovieDetailsCalls (movieId : String) : List String :=
  [detailsUrl movieId, creditsUrl movieId]

/-- Merge in `fetchMovieDetails`:
`\x7b...movieResponse.data, cast: creditsResponse.data.cast, crew: creditsResponse.data.crew\x7d`. -/
def mergeDetails (movieResp creditsResp : AxResponse) : JValue :=
  setField (setField movieResp.data "cast" (getField creditsResp.data "cast"))
    "crew" (getField creditsResp.data "crew")

/-- `fetchMovieDetails` of `src/unnamed/part_001` (lines 36–58) as a function
of the outcomes of its two axios calls: `Promise.all` join semantics — the
result is `ok` only when both calls succeed, and any failure is rethrown. -/
def fetchMovieDetails (movieRes creditsRes : AxResult) : Except AxError JValue :=
  match movieRes, creditsRes with
  | .error e, _ => .error e
  | .ok _, .error e => .error e
  | .ok m, .ok c => .ok (mergeDetails m c)

/-- Catch-block of the `/api/*` handlers of `part_001`: status passthrough
with the given label when the error carries an upstream response, 500
otherwise. -/
def apiCatchResponse (label : String) (e : AxError) : HttpResponse :=
  match e.response with
  | some r =>
      ⟨r.status, .obj [("error", .str label),
        ("details", jor (getField r.data "status_message") (.str e.message))]⟩
  | none =>
      ⟨500, .obj [("error", .str "Internal server error"),
        ("details", .str e.message)]⟩

/-- The `/api/mystery_movie` handler of `part_001` (lines 66–119), as a
function of today's date string, the calendar query result and the two TMDB
call outcomes consumed by `fetchMovieDetails`. -/
def apiMysteryMovie (today : String) (calRes : SbResult)
    (movieRes creditsRes : AxResult) : HttpResponse :=
  match calRes.error with
  | some e =>
      ⟨500, .obj [("error", .str "Database error"), ("details", jvOfMsg e.message)]⟩
  | none =>
      if truthy calRes.data && truthy (getField calRes.data "movie") then
        match fetchMovieDetails movieRes creditsRes with
        | .ok md =>
            ⟨200, .obj [("date", .str today),
              ("quote_en", getField calRes.data "quote_en"),
              ("quote_pl", getField calRes.data "quote_pl"),
              ("description", getField calRes.data "description"),
              ("movie", md)]⟩
        | .error e => apiCatchResponse "Failed to fetch movie from TheMovieDB" e
      else ⟨404, .obj [("error", .str "No movie found for today")]⟩

/-- Body of the 400 response of `/api/search`. -/
def searchBadRequestBody : JValue :=
  .obj [("error", .str "Query parameter is required"),
        ("example", .str "/search?query=batman")]

/-- The `/api/search` handler of `part_001` (lines 122–165): takes the
`query` request parameter and the outcome of the TMDB search call; returns
the list of search queries issued upstream together with the response. -/
def apiSearch (query : Option String) (searchRes : AxResult) :
    List String × HttpResponse :=
  match query with
  | none => ([], ⟨400, searchBadRequestBody⟩)
  | some q =>
      if q == "" then ([], ⟨400, searchBadRequestBody⟩)
      else
        ([q],
          match searchRes with
          | .ok r =>
              ⟨200, .obj [("query", .str q),
                ("results", getField r.data "results"),
                ("total_results", getField r.data "total_results"),
                ("page", getField r.data "page"),
                ("total_pages", getField r.data "total_pages")]⟩
          | .error e => apiCatchResponse "Failed to search movies from TheMovieDB" e)

/-- The `/api/movie/:movie_id` handler of `part_001` (lines 168–201): takes
the `movie_id` path parameter and the outcomes of the two TMDB calls; returns
the list of upstream URLs requested together with the response. -/
def apiMovie (movieId : String) (movieRes creditsRes : AxResult) :
    List String × HttpResponse :=
  if movieId == "" then
    ([], ⟨400, .obj [("error", .str "Movie ID is required"),
      ("example", .str "/movie/550")]⟩)
  else
    (fetchMovieDetailsCalls movieId,
      match fetchMovieDetails movieRes creditsRes with
      | .ok md => ⟨200, .obj [("movie", md)]⟩
      | .error e => apiCatchResponse "Failed to fetch movie from TheMovieDB" e)

/-- Shape of a Supabase query issued by the legacy handler: target table,
selected columns, optional `.eq('date', d)` filter, `.maybeSingle()` flag and
optional `.limit(n)`. -/
structure SbQuery where
  table : String
  select : String
  eqDate : Option String
  maybeSingle : Bool
  limit : Option Nat
deriving DecidableEq

/-- Primary calendar query of `src/server.js` (lines 73–77). -/
def primaryQuery (d : String) : SbQuery :=
  ⟨"calendar", "*", some d, true, none⟩

/-- Casing-retry query of `src/server.js` (lines 81–85): identical to the
primary query, against table `Calendar`. -/
def retryQuery (d : String) : SbQuery :=
  ⟨"Calendar", "*", some d, true, none⟩

/-- Fetch-all query of the scan fallback of `src/server.js` (lines 94–96). -/
def scanQuery : SbQuery :=
  ⟨"calendar", "*", none, false, none⟩

/-- Diagnostic query of the 404 branch of `src/server.js` (lines 141–144). -/
def debugQuery : SbQuery :=
  ⟨"calendar", "*", none, false, some 10⟩

/-- Condition of `src/server.js` line 80:
`error && (error.message?.includes('relation') || error.message?.includes('does not exist'))`. -/
def relationError (e : Option SbError) : Bool :=
  match e with
  | none => false
  | some err =>
      match err.message with
      | none => false
      | some m => jsIncludes m "relation" || jsIncludes m "does not exist"

/-- State of `(data, error)` after the casing-retry block of `src/server.js`
(lines 80–90): the retry's data is adopted and the error cleared only when
the retry itself did not error. -/
def afterRetry (primary retry : SbResult) : SbResult :=
  if relationError primary.error then
    match retry.error with
    | none => { data := retry.data, error := none }
    | some _ => primary
  else primary

/-- Condition of `src/server.js` line 93: `!data && !error`. -/
def scanNeeded (r : SbResult) : Bool := !truthy r.data && r.error.isNone

/-- Date normalization of the scan fallback (`src/server.js` lines 116–118):
a string date is truncated at `'T'`; a non-string date is passed through the
`Date`/`toISOString` builtin (the `iso` parameter) and then truncated. -/
def normalizeEntryDate (iso : JValue → String) (d : JValue) : String :=
  match d with
  | .str s => truncateAtT s
  | v => truncateAtT (iso v)

/-- Predicate of `allData.find` in `src/server.js` (lines 111–121): a falsy
`date` field never matches; otherwise the normalized date must equal today's
date. -/
def scanPred (today : String) (iso : JValue → String) (entry : JValue) : Bool :=
  truthy (getField entry "date") &&
    (normalizeEntryDate iso (getField entry "date") == today)

/-- Reassignment of `data` in the scan fallback (`src/server.js` lines
110–121): only a truthy non-empty row array is scanned; `find` yields the
first match in fetched order, or `undefined`. -/
def scanData (today : String) (iso : JValue → String) (allData prev : JValue) :
    JValue :=
  match allData with
  | .arr xs =>
      if 0 < xs.length then
        match xs.find? (scanPred today iso) with
        | some r => r
        | none => .undefined
      else prev
  | _ => prev

/-- 500 body of the database-error branches of `src/server.js` (lines
100–103 and 133–136): `details` falls back to `'Unknown error'`. -/
def dbErrorBody (e : SbError) : JValue :=
  .obj [("error", .str "Database error"),
        ("details", jor (jvOfMsg e.message) (.str "Unknown error"))]

/-- 404 body of `src/server.js` (lines 146–154), built from the data of the
diagnostic query (its error is ignored in source). -/
def notFoundBody (today : String) (allData : JValue) : JValue :=
  .obj [("error", .str "No movie found for today"),
        ("searchedDate", .str today),
        ("debug", .obj [
          ("totalEntries",
            jor (match allData with | .arr xs => .num xs.length | _ => .undefined)
              (.num 0)),
          ("sampleEntries",
            jor (match allData with | .arr xs => .arr (xs.take 3) | _ => .undefined)
              (.arr [])),
          ("entryDates",
            jor (match allData with
                 | .arr xs => .arr (xs.map fun e =>
                     .obj [("date", getField e "date"),
                           ("type", .str (jsTypeof (getField e "date")))])
                 | _ => .undefined)
              (.arr []))])]

/-- Movie-id extraction of `src/server.js` line 158:
`data.movie_id || data.movieId || data.movieid || data.movie`. -/
def extractMovieId (d : JValue) : JValue :=
  jor (getField d "movie_id")
    (jor (getField d "movieId") (jor (getField d "movieid") (getField d "movie")))

/-- 500 body of the missing-movie-id branch of `src/server.js` (lines
162–165). -/
def schemaErrorBody (d : JValue) : JValue :=
  .obj [("error", .str "Movie ID column not found"),
        ("availableFields", jsKeys d)]

/-- Catch-block of `src/server.js` (lines 182–197): status passthrough when
the error carries an upstream response (details fall back through
`status_message`, the error message, then `'Unknown error'`), 500 otherwise. -/
def legacyCatchResponse (e : AxError) : HttpResponse :=
  match e.response with
  | some r =>
      ⟨r.status, .obj [("error", .str "Failed to fetch movie from TheMovieDB"),
        ("details", jor (getField r.data "status_message")
          (jor (.str e.message) (.str "Unknown error")))]⟩
  | none =>
      ⟨500, .obj [("error", .str "Internal server error"),
        ("details", jor (.str e.message) (.str "Unknown error"))]⟩

/-- Environment of one `/mystery_movie` request of `src/server.js`: today's
date string, the `Date`/`toISOString` builtin for non-string date values, the
outcomes of the four possible Supabase queries and of the TMDB call. -/
structure MysteryEnv where
  today : String
  iso : JValue → String
  primaryRes : SbResult
  retryRes : SbResult
  allRes : SbResult
  debugRes : SbResult
  tmdbRes : AxResult

/-- Tail of the `/mystery_movie` handler of `src/server.js` (lines 131–197),
from the `if (error)` check on: takes the query trace so far and the current
`(data, error)` state. -/
def legacyFinish (env : MysteryEnv) (t : List SbQuery) (r : SbResult) :
    List SbQuery × HttpResponse :=
  match r.error with
  | some e => (t, ⟨500, dbErrorBody e⟩)
  | none =>
      if truthy r.data then
        let movieId := extractMovieId r.data
        if truthy movieId then
          match env.tmdbRes with
          | .ok resp =>
              (t, ⟨200, .obj [("date", .str env.today), ("movie", resp.data)]⟩)
          | .error e => (t, legacyCatchResponse e)
        else (t, ⟨500, schemaErrorBody r.data⟩)
      else (t ++ [debugQuery], ⟨404, notFoundBody env.today env.debugRes.data⟩)

/-- The `/mystery_movie` handler of `src/server.js` (lines 63–198): primary
query, casing retry on relation errors, full-table-scan fallback when no
error and no row, then error/404/extraction/TMDB; returns the list of
Supabase queries issued together with the response. -/
def mysteryMovie (env : MysteryEnv) : List SbQuery × HttpResponse :=
  let t1 := primaryQuery env.today ::
    (if relationError env.primaryRes.error then [retryQuery env.today] else [])
  let r1 := afterRetry env.primaryRes env.retryRes
  if scanNeeded r1 then
    match env.allRes.error with
    | some aE => (t1 ++ [scanQuery], ⟨500, dbErrorBody aE⟩)
    | none =>
        legacyFinish env (t1 ++ [scanQuery])
          { data := scanData env.today env.iso env.allRes.data r1.data,
            error := none }
  else legacyFinish env t1 r1

/-! Helper lemmas about object field update and lookup. -/

theorem lookupField_setFields_same (fs : List (String × JValue)) (k : String)
    (x : JValue) : lookupField (setFields fs k x) k = x := by
  induction fs with
  | nil => simp [setFields, lookupField]
  | cons p rest ih =>
      by_cases h : p.1 = k
      · simp [setFields, h, lookupField]
      · simp only [setFields]
        rw [if_neg (by simpa using h)]
        simpa [lookupField, h] using ih

theorem lookupField_setFields_ne (fs : List (String × JValue)) (k k' : String)
    (x : JValue) (h : k' ≠ k) :
    lookupField (setFields fs k x) k' = lookupField fs k' := by
  have hkk : ¬ (k = k') := fun hh => h hh.symm
  induction fs with
  | nil => simp [setFields, lookupField, hkk]
  | cons p rest ih =>
      by_cases hp : p.1 = k
      · simp only [setFields]
        rw [if_pos (by simpa using hp)]
        simp [lookupField, hkk, hp]
      · simp only [setFields]
        rw [if_neg (by simpa using hp)]
        by_cases hq : p.1 = k'
        · simp [lookupField, hq]
        · simp [lookupField, hq, ih]

theorem getField_setField_same (v : JValue) (k : String) (x : JValue) :
    getField (setField v k x) k = x := by
  simp [getField, setField, lookupField_setFields_same]

theorem getField_setField_ne (v : JValue) (k k' : String) (x : JValue)
    (h : k' ≠ k) : getField (setField v k x) k' = getField v k' := by
  have hkk : ¬ (k = k') := fun hh => h hh.symm
  cases v <;>
    simp [getField, setField, objFields, lookupField_setFields_ne _ _ _ _ h,
      lookupField, hkk]

theorem hasKey_setField_self (v : JValue) (k : String) (x : JValue) :
    hasKey (setField v k x) k = true := by
  have : ∀ fs : List (String × JValue),
      (setFields fs k x).any (fun p => p.1 == k) = true := by
    intro fs
    induction fs with
    | nil => simp [setFields]
    | cons p rest ih =>
        by_cases hp : p.1 = k
        · simp only [setFields]
          rw [if_pos (by simpa using hp)]
          simp
        · simp only [setFields]
          rw [if_neg (by simpa using hp)]
          simp [List.any_cons, ih]
  simp [hasKey, setField, this]

theorem hasKey_setField_of (v : JValue) (k k' : String) (x : JValue)
    (h : hasKey v k' = true) : hasKey (setField v k x) k' = true := by
  cases v with
  | obj fs =>
      simp only [hasKey, setField, objFields] at h ⊢
      induction fs with
      | nil => simp at h
      | cons p rest ih =>
          by_cases hp : p.1 = k
          · simp only [setFields]
            rw [if_pos (by simpa using hp)]
            rcases (by simpa using h : p.1 = k' ∨ rest.any (fun q => q.1 == k')) with
              h1 | h1
            · simp [← hp, h1]
            · simp [h1]
          · simp only [setFields]
            rw [if_neg (by simpa using hp)]
            rcases (by simpa using h : p.1 = k' ∨ rest.any (fun q => q.1 == k')) with
              h1 | h1
            · simp [h1]
            · simp [ih h1]
  | undefined => simp [hasKey] at h
  | null => simp [hasKey] at h
  | bool b => simp [hasKey] at h
  | num n => simp [hasKey] at h
  | str s => simp [hasKey] at h
  | arr xs => simp [hasKey] at h

/-- C2: for every movie identifier, `fetchMovieDetails` issues both the
details-by-ID call and the credits-by-ID call and waits for both; if either
call fails, it fails with that call's error and produces no partial result;
if both succeed, its result is exactly the details payload extended with a
`cast` field and a `crew` field taken from the credits response. -/
theorem fetchMovieDetails_spec (movieId : String) (mr cr : AxResult) :
    fetchMovieDetailsCalls movieId = [detailsUrl movieId, creditsUrl movieId]
    ∧ (∀ e, mr = .error e → fetchMovieDetails mr cr = .error e)
    ∧ (∀ rm e, mr = .ok rm → cr = .error e → fetchMovieDetails mr cr = .error e)
    ∧ (∀ v, fetchMovieDetails mr cr = .ok v →
        ∃ rm rc, mr = .ok rm ∧ cr = .ok rc ∧ v = mergeDetails rm rc)
    ∧ (∀ rm rc, mr = .ok rm → cr = .ok rc →
        fetchMovieDetails mr cr = .ok (mergeDetails rm rc)
        ∧ getField (mergeDetails rm rc) "cast" = getField rc.data "cast"
        ∧ getField (mergeDetails rm rc) "crew" = getField rc.data "crew"
        ∧ ∀ k, k ≠ "cast" → k ≠ "crew" →
            getField (mergeDetails rm rc) k = getField rm.data k) := by
  refine ⟨rfl, ?_, ?_, ?_, ?_⟩
  · rintro e rfl; rfl
  · rintro rm e rfl rfl; rfl
  · intro v hv
    cases mr with
    | error e => simp [fetchMovieDetails] at hv
    | ok rm =>
        cases cr with
        | error e => simp [fetchMovieDetails] at hv
        | ok rc =>
            refine ⟨rm, rc, rfl, rfl, ?_⟩
            simpa [fetchMovieDetails] using hv.symm
  · rintro rm rc rfl rfl
    refine ⟨rfl, ?_, ?_, ?_⟩
    · rw [mergeDetails, getField_setField_ne _ _ _ _ (by decide),
        getField_setField_same]
    · rw [mergeDetails, getField_setField_same]
    · intro k h1 h2
      rw [mergeDetails, getField_setField_ne _ _ _ _ h2,
        getField_setField_ne _ _ _ _ h1]

/-- Witness for C2 at a concrete pair of successful upstream responses. -/
theorem fetchMovieDetails_spec_witness :
    fetchMovieDetails (.ok ⟨200, .obj [("id", .num 550)]⟩)
        (.ok ⟨200, .obj [("cast", .arr []), ("crew", .arr [])]⟩) =
      .ok (mergeDetails ⟨200, .obj [("id", .num 550)]⟩
        ⟨200, .obj [("cast", .arr []), ("crew", .arr [])]⟩) :=
  ((fetchMovieDetails_spec "550" (.ok ⟨200, .obj [("id", .num 550)]⟩)
      (.ok ⟨200, .obj [("cast", .arr []), ("crew", .arr [])]⟩)).2.2.2.2
    ⟨200, .obj [("id", .num 550)]⟩
    ⟨200, .obj [("cast", .arr []), ("crew", .arr [])]⟩ rfl rfl).1

/-- C4: `/api/search` with the `query` parameter absent or empty responds 400
without calling the metadata service; with a non-empty query it calls the
search endpoint once and responds 200 with `query` equal to the input and
`results`, `total_results`, `page`, `total_pages` passed through unchanged
from the upstream response. -/
theorem apiSearch_spec (q : Option String) (sr : AxResult) :
    ((q = none ∨ q = some "") → apiSearch q sr = ([], ⟨400, searchBadRequestBody⟩))
    ∧ (∀ s resp, q = some s → s ≠ "" → sr = .ok resp →
        apiSearch q sr = ([s], ⟨200, .obj [("query", .str s),
          ("results", getField resp.data "results"),
          ("total_results", getField resp.data "total_results"),
          ("page", getField resp.data "page"),
          ("total_pages", getField resp.data "total_pages")]⟩)) := by
  constructor
  · rintro (rfl | rfl) <;> simp [apiSearch]
  · rintro s resp rfl hs rfl
    simp [apiSearch, hs]

/-- Witness for C4: a concrete non-empty query with a successful upstream
response, and a concrete empty query. -/
theorem apiSearch_spec_witness :
    apiSearch (some "batman")
        (.ok ⟨200, .obj [("results", .arr []), ("total_results", .num 0),
          ("page", .num 1), ("total_pages", .num 1)]⟩) =
      ([ "batman" ], ⟨200, .obj [("query", .str "batman"),
        ("results", .arr []), ("total_results", .num 0),
        ("page", .num 1), ("total_pages", .num 1)]⟩)
    ∧ apiSearch (some "") (.ok ⟨200, .obj []⟩) =
        ([], ⟨400, searchBadRequestBody⟩) := by
  constructor
  · have := (apiSearch_spec (some "batman")
      (.ok ⟨200, .obj [("results", .arr []), ("total_results", .num 0),
        ("page", .num 1), ("total_pages", .num 1)]⟩)).2 "batman"
      ⟨200, .obj [("results", .arr []), ("total_results", .num 0),
        ("page", .num 1), ("total_pages", .num 1)]⟩ rfl (by decide) rfl
    simpa using this
  · exact (apiSearch_spec (some "") (.ok ⟨200, .obj []⟩)).1 (Or.inr rfl)

/-- C5: when `fetchMovieDetails` fails with an error carrying an upstream
response (the metadata service answered non-2xx), the `/api/movie/:movie_id`
handler's status equals the upstream status; the 500 branch is taken only
for errors that carry no upstream response. -/
theorem apiMovie_status_passthrough (movieId : String) (mr cr : AxResult)
    (e : AxError) (h0 : movieId ≠ "")
    (hf : fetchMovieDetails mr cr = .error e) :
    (∀ r, e.response = some r → (apiMovie movieId mr cr).2.status = r.status)
    ∧ (e.response = none → (apiMovie movieId mr cr).2.status = 500) := by
  have hb : (movieId == "") = false := beq_eq_false_iff_ne.mpr h0
  constructor
  · rintro r hr
    simp [apiMovie, hb, hf, apiCatchResponse, hr]
  · intro hr
    simp [apiMovie, hb, hf, apiCatchResponse, hr]

/-- Witness for C5: the upstream details call answers 404 and the handler's
status is 404. -/
theorem apiMovie_status_passthrough_witness :
    (apiMovie "999999"
        (.error ⟨some ⟨404, .obj [("status_message", .str "Not found")]⟩,
          "Request failed with status code 404"⟩)
        (.ok ⟨200, .obj []⟩)).2.status = 404 :=
  (apiMovie_status_passthrough "999999"
      (.error ⟨some ⟨404, .obj [("status_message", .str "Not found")]⟩,
        "Request failed with status code 404"⟩)
      (.ok ⟨200, .obj []⟩)
      ⟨some ⟨404, .obj [("status_message", .str "Not found")]⟩,
        "Request failed with status code 404"⟩
      (by decide) rfl).1
    ⟨404, .obj [("status_message", .str "Not found")]⟩ rfl

/-- C8: the `/api/movie/:movie_id` handler is a deterministic function of
its inputs: two runs receiving identical upstream details and credits
responses produce structurally identical results (the model keeps no state
between requests). -/
theorem apiMovie_deterministic (movieId : String) (mr cr mr' cr' : AxResult)
    (h1 : mr = mr') (h2 : cr = cr') :
    apiMovie movieId mr cr = apiMovie movieId mr' cr' := by
  rw [h1, h2]

/-- Witness for C8 at a concrete movie id and concrete upstream responses. -/
theorem apiMovie_deterministic_witness :
    apiMovie "550" (.ok ⟨200, .obj [("id", .num 550)]⟩)
        (.ok ⟨200, .obj [("cast", .arr []), ("crew", .arr [])]⟩) =
      apiMovie "550" (.ok ⟨200, .obj [("id", .num 550)]⟩)
        (.ok ⟨200, .obj [("cast", .arr []), ("crew", .arr [])]⟩) :=
  apiMovie_deterministic "550" (.ok ⟨200, .obj [("id", .num 550)]⟩)
    (.ok ⟨200, .obj [("cast", .arr []), ("crew", .arr [])]⟩)
    (.ok ⟨200, .obj [("id", .num 550)]⟩)
    (.ok ⟨200, .obj [("cast", .arr []), ("crew", .arr [])]⟩) rfl rfl

/-- C10: the `/api/movie/:movie_id` handler performs no numeric validation
of the path parameter — every non-empty string, numeric or not, is forwarded
verbatim into the upstream details and credits URLs; the validation 400
branch is taken exactly when the parameter is the empty (falsy) string. -/
theorem apiMovie_no_numeric_validation (movieId : String) (mr cr : AxResult) :
    (movieId = "" → apiMovie movieId mr cr =
      ([], ⟨400, .obj [("error", .str "Movie ID is required"),
        ("example", .str "/movie/550")]⟩))
    ∧ (movieId ≠ "" → (apiMovie movieId mr cr).1 =
        [TMDB_BASE_URL ++ "/movie/" ++ movieId,
         TMDB_BASE_URL ++ "/movie/" ++ movieId ++ "/credits"]) := by
  constructor
  · rintro rfl; rfl
  · intro h
    have hb : (movieId == "") = false := beq_eq_false_iff_ne.mpr h
    simp [apiMovie, hb, fetchMovieDetailsCalls, detailsUrl, creditsUrl]

/-- Witness for C10: a non-numeric id is forwarded verbatim and an empty id
takes the 400 branch. -/
theorem apiMovie_no_numeric_validation_witness :
    (apiMovie "not-a-number" (.ok ⟨200, .obj []⟩) (.ok ⟨200, .obj []⟩)).1 =
      [TMDB_BASE_URL ++ "/movie/" ++ "not-a-number",
       TMDB_BASE_URL ++ "/movie/" ++ "not-a-number" ++ "/credits"]
    ∧ apiMovie "" (.ok ⟨200, .obj []⟩) (.ok ⟨200, .obj []⟩) =
        ([], ⟨400, .obj [("error", .str "Movie ID is required"),
          ("example", .str "/movie/550")]⟩) :=
  ⟨(apiMovie_no_numeric_validation "not-a-number" (.ok ⟨200, .obj []⟩)
      (.ok ⟨200, .obj []⟩)).2 (by decide),
   (apiMovie_no_numeric_validation "" (.ok ⟨200, .obj []⟩)
      (.ok ⟨200, .obj []⟩)).1 rfl⟩

/-! Helper lemmas about the legacy handler's query trace. -/

theorem truthy_obj (fs : List (String × JValue)) :
    truthy (.obj fs) = true := rfl

theorem legacyFinish_fst (env : MysteryEnv) (t : List SbQuery) (r : SbResult) :
    (legacyFinish env t r).1 = t ∨
      (legacyFinish env t r).1 = t ++ [debugQuery] := by
  unfold legacyFinish
  cases hE : r.error with
  | some e => left; rfl
  | none =>
      cases hd : truthy r.data with
      | true =>
          cases hm : truthy (extractMovieId r.data) with
          | true => cases env.tmdbRes <;> simp [hd, hm]
          | false => simp [hd, hm]
      | false => simp [hd]

theorem mysteryMovie_trace_shape (env : MysteryEnv) :
    ∃ s d : List SbQuery,
      (s = [] ∨ s = [scanQuery]) ∧ (d = [] ∨ d = [debugQuery]) ∧
      (mysteryMovie env).1 =
        (primaryQuery env.today ::
          (if relationError env.primaryRes.error then [retryQuery env.today]
           else [])) ++ s ++ d ∧
      (s = [scanQuery] ↔
        scanNeeded (afterRetry env.primaryRes env.retryRes) = true) := by
  unfold mysteryMovie
  cases hs : scanNeeded (afterRetry env.primaryRes env.retryRes) with
  | false =>
      rcases legacyFinish_fst env
          (primaryQuery env.today ::
            (if relationError env.primaryRes.error then [retryQuery env.today]
             else []))
          (afterRetry env.primaryRes env.retryRes) with h | h
      · exact ⟨[], [], Or.inl rfl, Or.inl rfl, by simp [hs, h], by simp⟩
      · exact ⟨[], [debugQuery], Or.inl rfl, Or.inr rfl, by simp [hs, h],
          by simp⟩
  | true =>
      cases hA : env.allRes.error with
      | some aE =>
          exact ⟨[scanQuery], [], Or.inr rfl, Or.inl rfl, by simp [hs, hA],
            by simp [hs]⟩
      | none =>
          rcases legacyFinish_fst env
              ((primaryQuery env.today ::
                (if relationError env.primaryRes.error
                 then [retryQuery env.today] else [])) ++ [scanQuery])
              ⟨scanData env.today env.iso env.allRes.data
                  (afterRetry env.primaryRes env.retryRes).data, none⟩
            with h | h
          · exact ⟨[scanQuery], [], Or.inr rfl, Or.inl rfl,
              by simp [hs, hA]; simpa using h, by simp [hs]⟩
          · exact ⟨[scanQuery], [debugQuery], Or.inr rfl, Or.inr rfl,
              by simp [hs, hA]; simpa using h, by simp [hs]⟩

theorem mysteryMovie_primary_row (env : MysteryEnv)
    (fs : List (String × JValue))
    (hP : env.primaryRes = ⟨.obj fs, none⟩) :
    (mysteryMovie env).2 =
      (legacyFinish env [primaryQuery env.today] ⟨.obj fs, none⟩).2 := by
  unfold mysteryMovie
  rw [hP]
  simp [afterRetry, relationError, scanNeeded, truthy]

/-- C3: the full-table-scan fallback is issued exactly when the primary (and
casing-retry) query state has no error but a falsy row; the scan selects the
first row in fetched order whose date field, normalized to `YYYY-MM-DD`
(string dates truncated at `'T'`, non-string dates converted through the
`Date`/ISO builtin and truncated), equals today's date; rows with an absent
date field never match. -/
theorem scan_fallback_spec (env : MysteryEnv) :
    (scanQuery ∈ (mysteryMovie env).1 ↔
      (truthy (afterRetry env.primaryRes env.retryRes).data = false ∧
        (afterRetry env.primaryRes env.retryRes).error = none))
    ∧ (∀ xs prev, 0 < xs.length →
        scanData env.today env.iso (.arr xs) prev =
          (match xs.find? (scanPred env.today env.iso) with
           | some r => r
           | none => .undefined))
    ∧ (∀ entry, scanPred env.today env.iso entry =
        (truthy (getField entry "date") &&
          (normalizeEntryDate env.iso (getField entry "date") == env.today)))
    ∧ (∀ s, normalizeEntryDate env.iso (.str s) = truncateAtT s)
    ∧ (∀ v, (∀ s, v ≠ .str s) →
        normalizeEntryDate env.iso v = truncateAtT (env.iso v))
    ∧ (∀ entry, getField entry "date" = .undefined →
        scanPred env.today env.iso entry = false) := by
  refine ⟨?_, ?_, ?_, ?_, ?_, ?_⟩
  · obtain ⟨s, d, hs, hd, htr, hiff⟩ := mysteryMovie_trace_shape env
    have h1 : scanQuery ≠ primaryQuery env.today := by
      simp [scanQuery, primaryQuery]
    have h2 : scanQuery ≠ retryQuery env.today := by
      simp [scanQuery, retryQuery]
    have h3 : scanQuery ∉ d := by
      rcases hd with rfl | rfl
      · simp
      · simp [scanQuery, debugQuery]
    have h4 : scanQuery ∈ s ↔ s = [scanQuery] := by
      rcases hs with rfl | rfl <;> simp
    rw [htr]
    constructor
    · intro hm
      rcases List.mem_append.mp hm with hm | hm
      · rcases List.mem_append.mp hm with hm | hm
        · rcases List.mem_cons.mp hm with hm | hm
          · exact absurd hm h1
          · rcases hq : relationError env.primaryRes.error with _ | _ <;>
              rw [hq] at hm
            · simp at hm
            · simp at hm
              exact absurd hm h2
        · have := hiff.mp (h4.mp hm)
          simpa [scanNeeded, Bool.and_eq_true, Bool.not_eq_true',
            Option.isNone_iff_eq_none] using this
      · exact absurd hm h3
    · intro hcond
      have hneed : scanNeeded (afterRetry env.primaryRes env.retryRes) = true := by
        simpa [scanNeeded, Bool.and_eq_true, Bool.not_eq_true',
          Option.isNone_iff_eq_none] using hcond
      have hseq : s = [scanQuery] := hiff.mpr hneed
      refine List.mem_append.mpr (Or.inl (List.mem_append.mpr (Or.inr ?_)))
      rw [hseq]; simp
  · intro xs prev h
    simp [scanData, h]
  · intro entry; rfl
  · intro s; rfl
  · intro v hv
    cases v with
    | str s => exact absurd rfl (hv s)
    | undefined => rfl
    | null => rfl
    | bool b => rfl
    | num n => rfl
    | arr xs => rfl
    | obj fs => rfl
  · intro entry hdate
    simp [scanPred, hdate, truthy]

/-- Witness for C3: a concrete environment in which the primary query
returns no row and no error, so the scan is issued, and a concrete scan over
two rows picking the first normalized match. -/
theorem scan_fallback_spec_witness :
    scanQuery ∈ (mysteryMovie
      { today := "2024-01-15", iso := fun _ => "2024-01-15T00:00:00.000Z",
        primaryRes := ⟨.null, none⟩, retryRes := ⟨.null, none⟩,
        allRes := ⟨.arr [.obj [("date", .str "2024-01-14")],
          .obj [("date", .num 1705276800000), ("movie", .num 550)]], none⟩,
        debugRes := ⟨.null, none⟩,
        tmdbRes := .ok ⟨200, .obj [("id", .num 550)]⟩ }).1 :=
  (scan_fallback_spec
    { today := "2024-01-15", iso := fun _ => "2024-01-15T00:00:00.000Z",
      primaryRes := ⟨.null, none⟩, retryRes := ⟨.null, none⟩,
      allRes := ⟨.arr [.obj [("date", .str "2024-01-14")],
        .obj [("date", .num 1705276800000), ("movie", .num 550)]], none⟩,
      debugRes := ⟨.null, none⟩,
      tmdbRes := .ok ⟨200, .obj [("id", .num 550)]⟩ }).1.mpr ⟨rfl, rfl⟩

/-- C6: the alternate-casing retry is issued exactly when the primary query
errors with a message containing `'relation'` or `'does not exist'`; the
retry is the identical query (same selection, same date equality, same
`maybeSingle`) against the table name `Calendar`. -/
theorem casing_retry_spec (env : MysteryEnv) :
    (retryQuery env.today ∈ (mysteryMovie env).1 ↔
      relationError env.primaryRes.error = true)
    ∧ (relationError env.primaryRes.error = true ↔
        ∃ e m, env.primaryRes.error = some e ∧ e.message = some m ∧
          (jsIncludes m "relation" = true ∨
            jsIncludes m "does not exist" = true))
    ∧ retryQuery env.today = { primaryQuery env.today with table := "Calendar" } := by
  refine ⟨?_, ?_, rfl⟩
  · obtain ⟨s, d, hs, hd, htr, _⟩ := mysteryMovie_trace_shape env
    have h1 : retryQuery env.today ≠ primaryQuery env.today := by
      simp [retryQuery, primaryQuery]
    have h2 : retryQuery env.today ∉ s := by
      rcases hs with rfl | rfl
      · simp
      · simp [retryQuery, scanQuery]
    have h3 : retryQuery env.today ∉ d := by
      rcases hd with rfl | rfl
      · simp
      · simp [retryQuery, debugQuery]
    rw [htr]
    constructor
    · intro hm
      rcases List.mem_append.mp hm with hm | hm
      · rcases List.mem_append.mp hm with hm | hm
        · rcases List.mem_cons.mp hm with hm | hm
          · exact absurd hm h1
          · cases hq : relationError env.primaryRes.error with
            | false => rw [hq] at hm; simp at hm
            | true => rfl
        · exact absurd hm h2
      · exact absurd hm h3
    · intro hrel
      refine List.mem_append.mpr (Or.inl (List.mem_append.mpr
        (Or.inl (List.mem_cons.mpr (Or.inr ?_)))))
      rw [hrel]; simp
  · cases hE : env.primaryRes.error with
    | none => simp [relationError]
    | some err =>
        cases hm : err.message with
        | none => simp [relationError, hm]
        | some m => simp [relationError, hm, Bool.or_eq_true]

/-- Witness for C6: a concrete primary error mentioning a missing relation
makes the handler issue the retry against `Calendar`. -/
theorem casing_retry_spec_witness :
    retryQuery "2024-01-15" ∈ (mysteryMovie
      { today := "2024-01-15", iso := fun _ => "x",
        primaryRes := ⟨.null, some ⟨some "relation calendar does not exist"⟩⟩,
        retryRes := ⟨.obj [("movie", .num 3)], none⟩,
        allRes := ⟨.null, none⟩, debugRes := ⟨.null, none⟩,
        tmdbRes := .ok ⟨200, .obj []⟩ }).1 :=
  (casing_retry_spec
    { today := "2024-01-15", iso := fun _ => "x",
      primaryRes := ⟨.null, some ⟨some "relation calendar does not exist"⟩⟩,
      retryRes := ⟨.obj [("movie", .num 3)], none⟩,
      allRes := ⟨.null, none⟩, debugRes := ⟨.null, none⟩,
      tmdbRes := .ok ⟨200, .obj []⟩ }).1.mpr rfl

/-- C9: when the casing retry itself errors, the primary query's data and
error are left unchanged and the 500 response reports the primary query's
error message, never the retry's. -/
theorem retry_error_not_adopted (env : MysteryEnv) (e : SbError)
    (he : env.primaryRes.error = some e) (hr : env.retryRes.error ≠ none) :
    afterRetry env.primaryRes env.retryRes = env.primaryRes
    ∧ (mysteryMovie env).2 = ⟨500, dbErrorBody e⟩ := by
  have h1 : afterRetry env.primaryRes env.retryRes = env.primaryRes := by
    unfold afterRetry
    split
    · cases hR : env.retryRes.error with
      | none => exact absurd hR hr
      | some er => rfl
    · rfl
  have h2 : scanNeeded env.primaryRes = false := by
    simp [scanNeeded, he]
  refine ⟨h1, ?_⟩
  unfold mysteryMovie
  simp [h1, h2, legacyFinish, he]

/-- Witness for C9: the primary query fails with a relation error and the
retry fails with a different error; the response carries the primary
message. -/
theorem retry_error_not_adopted_witness :
    (mysteryMovie
      { today := "2024-01-15", iso := fun _ => "x",
        primaryRes := ⟨.null, some ⟨some "relation calendar does not exist"⟩⟩,
        retryRes := ⟨.null, some ⟨some "permission denied"⟩⟩,
        allRes := ⟨.null, none⟩, debugRes := ⟨.null, none⟩,
        tmdbRes := .ok ⟨200, .obj []⟩ }).2 =
      ⟨500, dbErrorBody ⟨some "relation calendar does not exist"⟩⟩ :=
  (retry_error_not_adopted
    { today := "2024-01-15", iso := fun _ => "x",
      primaryRes := ⟨.null, some ⟨some "relation calendar does not exist"⟩⟩,
      retryRes := ⟨.null, some ⟨some "permission denied"⟩⟩,
      allRes := ⟨.null, none⟩, debugRes := ⟨.null, none⟩,
      tmdbRes := .ok ⟨200, .obj []⟩ }
    ⟨some "relation calendar does not exist"⟩ rfl (by decide)).2

/-- C1 counterexample: a calendar row returned for today's date that carries
none of the fields `movie_id`, `movieId`, `movieid`, `movie` makes the
`/api/mystery_movie` handler (the handler cited by the claim) respond 404,
not 500. -/
theorem apiMystery_missing_id_responds_404 :
    (apiMysteryMovie "2024-01-15"
        ⟨.obj [("id", .num 7), ("date", .str "2024-01-15")], none⟩
        (.ok ⟨200, .obj []⟩) (.ok ⟨200, .obj []⟩)).status = 404
    ∧ (apiMysteryMovie "2024-01-15"
        ⟨.obj [("id", .num 7), ("date", .str "2024-01-15")], none⟩
        (.ok ⟨200, .obj []⟩) (.ok ⟨200, .obj []⟩)).status ≠ 500 :=
  ⟨rfl, by decide⟩

/-- C1 as amended: the four-name priority extraction (`movie_id`, `movieId`,
`movieid`, `movie`, first truthy wins) and the 500 response reporting the
row's available field names, never a 404, belong to the legacy
`/mystery_movie` handler of `src/server.js`; the `/api/mystery_movie`
handler of `src/unnamed/part_001` extracts only the `movie` field and
responds 404 when it is absent or falsy. -/
theorem movie_id_extraction_spec :
    (∀ d : JValue, truthy (getField d "movie_id") = true →
      extractMovieId d = getField d "movie_id")
    ∧ (∀ d : JValue, truthy (getField d "movie_id") = false →
        truthy (getField d "movieId") = true →
        extractMovieId d = getField d "movieId")
    ∧ (∀ d : JValue, truthy (getField d "movie_id") = false →
        truthy (getField d "movieId") = false →
        truthy (getField d "movieid") = true →
        extractMovieId d = getField d "movieid")
    ∧ (∀ d : JValue, truthy (getField d "movie_id") = false →
        truthy (getField d "movieId") = false →
        truthy (getField d "movieid") = false →
        extractMovieId d = getField d "movie")
    ∧ (∀ (env : MysteryEnv) (fs : List (String × JValue)),
        env.primaryRes = ⟨.obj fs, none⟩ →
        truthy (extractMovieId (.obj fs)) = false →
        (mysteryMovie env).2 =
          ⟨500, .obj [("error", .str "Movie ID column not found"),
            ("availableFields", .arr (fs.map fun p => JValue.str p.1))]⟩)
    ∧ (∀ (today : String) (calRes : SbResult) (mr cr : AxResult),
        calRes.error = none →
        truthy (getField calRes.data "movie") = false →
        (apiMysteryMovie today calRes mr cr).status = 404) := by
  refine ⟨?_, ?_, ?_, ?_, ?_, ?_⟩
  · intro d h1; simp [extractMovieId, jor, h1]
  · intro d h1 h2; simp [extractMovieId, jor, h1, h2]
  · intro d h1 h2 h3; simp [extractMovieId, jor, h1, h2, h3]
  · intro d h1 h2 h3; simp [extractMovieId, jor, h1, h2, h3]
  · intro env fs hP hM
    rw [mysteryMovie_primary_row env fs hP]
    simp [legacyFinish, truthy_obj, hM, schemaErrorBody, jsKeys]
  · intro today calRes mr cr hE hM
    cases calRes with
    | mk d e =>
        cases hE
        simp only [apiMysteryMovie] at *
        simp [hM]

/-- Witness for C1's amended statement: priority extraction at a concrete
row, the legacy 500 with field names at a concrete environment, and the
`/api` 404 at a concrete row lacking the `movie` field. -/
theorem movie_id_extraction_spec_witness :
    extractMovieId (.obj [("movieid", .num 3), ("movie", .num 4)]) = .num 3
    ∧ (mysteryMovie
        { today := "2024-01-15", iso := fun _ => "x",
          primaryRes := ⟨.obj [("id", .num 7), ("date", .str "2024-01-15")], none⟩,
          retryRes := ⟨.null, none⟩, allRes := ⟨.null, none⟩,
          debugRes := ⟨.null, none⟩, tmdbRes := .ok ⟨200, .obj []⟩ }).2 =
      ⟨500, .obj [("error", .str "Movie ID column not found"),
        ("availableFields", .arr [.str "id", .str "date"])]⟩
    ∧ (apiMysteryMovie "2024-01-15" ⟨.obj [("movie_id", .num 550)], none⟩
        (.ok ⟨200, .obj []⟩) (.ok ⟨200, .obj []⟩)).status = 404 := by
  refine ⟨?_, ?_, ?_⟩
  · exact (movie_id_extraction_spec.2.2.1
      (.obj [("movieid", .num 3), ("movie", .num 4)]) rfl rfl rfl).trans rfl
  · exact ((movie_id_extraction_spec.2.2.2.2.1
      { today := "2024-01-15", iso := fun _ => "x",
        primaryRes := ⟨.obj [("id", .num 7), ("date", .str "2024-01-15")], none⟩,
        retryRes := ⟨.null, none⟩, allRes := ⟨.null, none⟩,
        debugRes := ⟨.null, none⟩, tmdbRes := .ok ⟨200, .obj []⟩ }
      [("id", .num 7), ("date", .str "2024-01-15")] rfl rfl).trans (by rfl))
  · exact movie_id_extraction_spec.2.2.2.2.2 "2024-01-15"
      ⟨.obj [("movie_id", .num 550)], none⟩
      (.ok ⟨200, .obj []⟩) (.ok ⟨200, .obj []⟩) rfl rfl

/-- C7: on success the legacy `/mystery_movie` body has exactly the fields
`date` (today as `YYYY-MM-DD`) and `movie`, with no display fields; on
success the `/api/mystery_movie` body has exactly the fields `date`,
`quote_en`, `quote_pl`, `description` and `movie`, where `movie` is the
enriched record carrying `cast` and `crew`. -/
theorem success_response_shapes :
    (∀ (env : MysteryEnv) (fs : List (String × JValue)) (resp : AxResponse),
      env.primaryRes = ⟨.obj fs, none⟩ →
      truthy (extractMovieId (.obj fs)) = true →
      env.tmdbRes = .ok resp →
      (mysteryMovie env).2 =
        ⟨200, .obj [("date", .str env.today), ("movie", resp.data)]⟩)
    ∧ (∀ (today : String) (row : JValue) (rm rc : AxResponse),
        truthy (getField row "movie") = true →
        apiMysteryMovie today ⟨row, none⟩ (.ok rm) (.ok rc) =
          ⟨200, .obj [("date", .str today),
            ("quote_en", getField row "quote_en"),
            ("quote_pl", getField row "quote_pl"),
            ("description", getField row "description"),
            ("movie", mergeDetails rm rc)]⟩
        ∧ hasKey (mergeDetails rm rc) "cast" = true
        ∧ hasKey (mergeDetails rm rc) "crew" = true) := by
  constructor
  · intro env fs resp hP hM hT
    rw [mysteryMovie_primary_row env fs hP]
    simp [legacyFinish, truthy_obj, hM, hT]
  · intro today row rm rc hM
    have hrow : truthy row = true := by
      cases row <;> simp [getField, truthy] at hM ⊢
    refine ⟨?_, ?_, ?_⟩
    · simp [apiMysteryMovie, hrow, hM, fetchMovieDetails]
    · exact hasKey_setField_of _ _ _ _ (hasKey_setField_self _ _ _)
    · exact hasKey_setField_self _ _ _

/-- Witness for C7 at concrete environments: the legacy success body and the
`/api` success body with enriched movie. -/
theorem success_response_shapes_witness :
    (mysteryMovie
      { today := "2024-01-15", iso := fun _ => "x",
        primaryRes := ⟨.obj [("date", .str "2024-01-15"), ("movie_id", .num 550)], none⟩,
        retryRes := ⟨.null, none⟩, allRes := ⟨.null, none⟩,
        debugRes := ⟨.null, none⟩,
        tmdbRes := .ok ⟨200, .obj [("id", .num 550), ("title", .str "Fight Club")]⟩ }).2 =
      ⟨200, .obj [("date", .str "2024-01-15"),
        ("movie", .obj [("id", .num 550), ("title", .str "Fight Club")])]⟩
    ∧ apiMysteryMovie "2024-01-15"
        ⟨.obj [("movie", .num 550), ("quote_en", .str "q"), ("quote_pl", .str "p"),
          ("description", .str "d")], none⟩
        (.ok ⟨200, .obj [("id", .num 550)]⟩)
        (.ok ⟨200, .obj [("cast", .arr []), ("crew", .arr [])]⟩) =
      ⟨200, .obj [("date", .str "2024-01-15"),
        ("quote_en", .str "q"), ("quote_pl", .str "p"), ("description", .str "d"),
        ("movie", mergeDetails ⟨200, .obj [("id", .num 550)]⟩
          ⟨200, .obj [("cast", .arr []), ("crew", .arr [])]⟩)]⟩ := by
  constructor
  · exact (success_response_shapes.1
      { today := "2024-01-15", iso := fun _ => "x",
        primaryRes := ⟨.obj [("date", .str "2024-01-15"), ("movie_id", .num 550)], none⟩,
        retryRes := ⟨.null, none⟩, allRes := ⟨.null, none⟩,
        debugRes := ⟨.null, none⟩,
        tmdbRes := .ok ⟨200, .obj [("id", .num 550), ("title", .str "Fight Club")]⟩ }
      [("date", .str "2024-01-15"), ("movie_id", .num 550)]
      ⟨200, .obj [("id", .num 550), ("title", .str "Fight Club")]⟩ rfl rfl rfl)
  · exact ((success_response_shapes.2 "2024-01-15"
      (.obj [("movie", .num 550), ("quote_en", .str "q"), ("quote_pl", .str "p"),
        ("description", .str "d")])
      ⟨200, .obj [("id", .num 550)]⟩
      ⟨200, .obj [("cast", .arr []), ("crew", .arr [])]⟩ rfl).1.trans (by rfl))

end Filmle
